import Mathlib

/-!
Verification of the tilecraft resilient execution engine against its design
specification.  The definitions below are shallow embeddings of the Python
sources in src/tilecraft: `osm_downloader.py` (endpoint rotation, retry
delay, download retry loop), `utils/cache.py` (CacheManager), and
`core/tile_generator.py` (memory monitor, tippecanoe command construction,
output validation).  Machine floats are modelled as rationals; filesystem
and network effects are modelled by explicit environments.  Waiting
durations (time.sleep) are accumulated as data where a claim mentions them
and elided where they cannot affect control flow.
-/

namespace Tilecraft

/-! ### OSM downloader: constants (osm_downloader.py lines 42-54) -/

def OVERPASS_ENDPOINTS : List String :=
  ["https://overpass-api.de/api/interpreter",
   "https://lz4.overpass-api.de/api/interpreter",
   "https://z.overpass-api.de/api/interpreter"]

def MAX_RETRIES : Nat := 5

def BASE_RETRY_DELAY : ℚ := 2

def MAX_RETRY_DELAY : ℚ := 60

def RATE_LIMIT_DELAY : ℚ := 30

/-- `_rotate_endpoint` (lines 79-82): advance the current endpoint index by one,
wrapping modulo the pool size.  The pool itself is a class constant and is
never modified; rotation only changes the index. -/
def rotateEndpoint (currentEndpointIndex : Nat) : Nat :=
  (currentEndpointIndex + 1) % OVERPASS_ENDPOINTS.length

/-- The pre-jitter delay of `_calculate_retry_delay` (line 108):
`delay = min(base_delay * (2 ** attempt), MAX_RETRY_DELAY)`. -/
def preJitterDelay (attempt : Nat) (baseDelay : ℚ) : ℚ :=
  min (baseDelay * 2 ^ attempt) MAX_RETRY_DELAY

/-- `_calculate_retry_delay` (lines 93-113).  `rand` is the value returned by
`random.random()`, which lies in [0, 1).
`jitter = delay * 0.25 * (random.random() - 0.5)`;
`return max(1.0, min(delay + jitter, MAX_RETRY_DELAY))`. -/
def calculateRetryDelay (attempt : Nat) (baseDelay : ℚ) (rand : ℚ) : ℚ :=
  let delay := preJitterDelay attempt baseDelay
  let jitter := delay * (1 / 4) * (rand - 1 / 2)
  let finalDelay := delay + jitter
  max 1 (min finalDelay MAX_RETRY_DELAY)

/-! ### OSM downloader: one download attempt (`_download_with_progress`) -/

/-- Observable outcome of one HTTP attempt in `_download_with_progress`
(lines 161-208): the stream either succeeds, returns a non-200 status,
times out (httpx.TimeoutException), or hits a network error. -/
inductive HttpAttempt where
  | ok
  | http (status : Nat)
  | timedOut
  | networkErr
  deriving DecidableEq, Repr

/-- The exception types raised by the downloader.  In the source,
`RateLimitError` and `TimeoutError` both subclass `OverpassAPIError`;
`runtimeOther` stands for any other (unexpected) exception. -/
inductive DlError where
  | rateLimitError
  | timeoutError
  | overpassAPIError
  | runtimeOther
  deriving DecidableEq, Repr

/-- Error classification of `_download_with_progress` (lines 172-208): a 429
status raises RateLimitError, a 5xx status raises OverpassAPIError
("Server error"), any other non-200 status raises OverpassAPIError
("HTTP ..."); httpx timeouts raise TimeoutError, network errors raise
OverpassAPIError.  Note that 4xx statuses other than 429 are mapped to the
same exception type as 5xx statuses. -/
def classifyAttempt : HttpAttempt → Option DlError
  | .ok => none
  | .http status =>
      if status = 429 then some .rateLimitError
      else if 500 ≤ status then some .overpassAPIError
      else some .overpassAPIError
  | .timedOut => some .timeoutError
  | .networkErr => some .overpassAPIError

/-! ### OSM downloader: retry loop (`_download_with_retry`, lines 264-365) -/

/-- Trace of a finished download run: how many attempts were performed, how
many endpoint rotations occurred, and the final endpoint index. -/
structure DlTrace where
  attempts : Nat
  rotations : Nat
  endpointIdx : Nat
  deriving DecidableEq, Repr

inductive DlOutcome where
  | downloaded (trace : DlTrace)
  | raised (e : DlError) (trace : DlTrace)
  deriving DecidableEq, Repr

/-- The loop body of `_download_with_retry`: iterate over the attempt indices
of `range(MAX_RETRIES)`.  `resp` gives the outcome of the HTTP attempt at
each index.  Handlers, in source order:
RateLimitError: if not the last attempt, wait then rotate;
TimeoutError: if not the last attempt, backoff then rotate;
OverpassAPIError: if not the last attempt, backoff, and rotate only when
`attempt >= 1`;
any other exception: if not the last attempt, backoff without rotating.
After the loop, the last exception is raised (lines 361-365). -/
def downloadLoop (resp : Nat → HttpAttempt) :
    List Nat → Nat → Nat → Option DlError → DlOutcome
  | [], endpointIdx, rotations, lastExc =>
      .raised (lastExc.getD .runtimeOther) ⟨MAX_RETRIES, rotations, endpointIdx⟩
  | attempt :: rest, endpointIdx, rotations, _ =>
      match classifyAttempt (resp attempt) with
      | none => .downloaded ⟨attempt + 1, rotations, endpointIdx⟩
      | some e =>
          if attempt < MAX_RETRIES - 1 then
            match e with
            | .rateLimitError =>
                downloadLoop resp rest (rotateEndpoint endpointIdx) (rotations + 1) (some e)
            | .timeoutError =>
                downloadLoop resp rest (rotateEndpoint endpointIdx) (rotations + 1) (some e)
            | .overpassAPIError =>
                if 1 ≤ attempt then
                  downloadLoop resp rest (rotateEndpoint endpointIdx) (rotations + 1) (some e)
                else
                  downloadLoop resp rest endpointIdx rotations (some e)
            | .runtimeOther =>
                downloadLoop resp rest endpointIdx rotations (some e)
          else
            downloadLoop resp rest endpointIdx rotations (some e)

/-- `_download_with_retry`: run the attempt loop from a freshly constructed
state (endpoint index 0, as set in `__init__`). -/
def downloadWithRetry (resp : Nat → HttpAttempt) : DlOutcome :=
  downloadLoop resp (List.range MAX_RETRIES) 0 0 none

/-! ### CacheManager (utils/cache.py)

File contents are byte lists; paths are strings.  The ambient filesystem
state and failure environment (os.access results, free disk space, whether
copy2/rename/mkdir raise) are fields of `FS`. -/

structure FS where
  /-- Contents by path; `none` models a missing file (`Path.exists` false). -/
  files : String → Option (List Nat)
  /-- `os.access(p, os.R_OK)`. -/
  readable : String → Bool
  /-- `os.access(dir, os.W_OK)`. -/
  dirWritable : String → Bool
  /-- `shutil.disk_usage(...).free`. -/
  freeSpace : Nat
  /-- whether `Path.mkdir(parents=True, exist_ok=True)` raises. -/
  mkdirFails : Bool
  /-- whether `shutil.copy2` raises. -/
  copyFails : Bool
  /-- whether `Path.rename` raises. -/
  renameFails : Bool
  /-- `Path.exists` for directories (used by `get_size` and `clear`). -/
  dirExists : String → Bool
  /-- snapshot of `cache_dir.rglob("*")` for `get_size`: path, size, whether
  the entry is a regular file, and whether it vanished between listing and
  lstat (the race `get_size` must skip over). -/
  listing : List (String × Nat × Bool × Bool)

def FS.write (fs : FS) (p : String) (c : List Nat) : FS :=
  { fs with files := fun q => if q = p then some c else fs.files q }

def FS.removeFile (fs : FS) (p : String) : FS :=
  { fs with files := fun q => if q = p then none else fs.files q }

structure CacheManager where
  cacheDir : String
  enabled : Bool

/-- `CacheManager.get_path` (lines 49-61): `cache_dir / (key + suffix)`. -/
def getPath (cm : CacheManager) (key suffix : String) : String :=
  cm.cacheDir ++ "/" ++ (key ++ suffix)

/-- `CacheManager.exists` (lines 63-78). -/
def CacheManager.existsEntry (cm : CacheManager) (fs : FS) (key suffix : String) : Bool :=
  if !cm.enabled then false
  else ((fs.files (getPath cm key suffix)).isSome : Bool)

/-- `CacheManager.get` (lines 80-100): return the cache path when the entry
exists, `None` otherwise; always `None` when disabled. -/
def CacheManager.get (cm : CacheManager) (fs : FS) (key suffix : String) : Option String :=
  if !cm.enabled then none
  else
    let cachePath := getPath cm key suffix
    if (fs.files cachePath).isSome then some cachePath else none

/-- Python exception classes that can escape the try-block of
`CacheManager.put`. -/
inductive PyErr where
  | fileNotFound
  | permission
  | osError
  | otherErr
  deriving DecidableEq, Repr

/-- Body of the try-block of `CacheManager.put` (lines 121-160), which may
raise.  Checks in source order: mkdir of the cache directory, source
existence, source readability, free space at least twice the source size,
cache-directory writability, then copy to a sibling `.tmp` file and rename
into place (on a copy/rename failure the temp file is unlinked again, so
the visible file map is unchanged). -/
def putBody (cm : CacheManager) (fs : FS) (cachePath sourcePath : String) :
    Except PyErr (FS × String) :=
  if fs.mkdirFails then .error .osError
  else
    match fs.files sourcePath with
    | none => .error .fileNotFound
    | some contents =>
        if !fs.readable sourcePath then .error .permission
        else if fs.freeSpace < contents.length * 2 then .error .osError
        else if !fs.dirWritable cm.cacheDir then .error .permission
        else if fs.copyFails then .error .otherErr
        else if fs.renameFails then .error .otherErr
        else
          .ok (((fs.write (cachePath ++ ".tmp") contents).removeFile
                  (cachePath ++ ".tmp")).write cachePath contents,
               cachePath)

/-- `CacheManager.put` (lines 102-170).  When disabled, pass the source path
through.  When the source already is the cache path, return it without any
filesystem operation.  Otherwise run the try-block; both except-clauses
(`except (OSError, PermissionError, FileNotFoundError)` and
`except Exception`) log and return the source path unchanged, so no
exception escapes. -/
def CacheManager.put (cm : CacheManager) (fs : FS) (key : String) (sourcePath : String)
    (suffix : String) : Except PyErr (FS × String) :=
  if !cm.enabled then .ok (fs, sourcePath)
  else
    let cachePath := getPath cm key suffix
    if sourcePath ≠ cachePath then
      match putBody cm fs cachePath sourcePath with
      | .error _ => .ok (fs, sourcePath)
      | .ok r => .ok r
    else .ok (fs, cachePath)

/-- The disjunction of conditions under which the try-block of `put` raises
(and `put` therefore degrades to returning the source path). -/
def putFails (cm : CacheManager) (fs : FS) (sourcePath : String) : Bool :=
  fs.mkdirFails || (fs.files sourcePath).isNone || !fs.readable sourcePath ||
    decide (fs.freeSpace < ((fs.files sourcePath).getD []).length * 2) ||
    !fs.dirWritable cm.cacheDir || fs.copyFails || fs.renameFails

/-- `CacheManager.get_size` (lines 266-292): 0 when disabled or the cache
directory does not exist; otherwise sum the sizes of regular files in the
listing, skipping entries that vanished between iteration and lstat. -/
def CacheManager.getSize (cm : CacheManager) (fs : FS) : Nat :=
  if !cm.enabled || !fs.dirExists cm.cacheDir then 0
  else
    (fs.listing.filter (fun e => e.2.2.1 && !e.2.2.2)).foldl
      (fun acc e => acc + e.2.1) 0

/-- The filesystem state after a fully successful `put`: the contents of the
source file are copied to the sibling temp file, which is renamed onto the
cache path (so the temp entry is gone and the cache path holds the source
contents). -/
def putSuccessFs (cm : CacheManager) (fs : FS) (key suffix sourcePath : String) : FS :=
  let cachePath := getPath cm key suffix
  let contents := (fs.files sourcePath).getD []
  ((fs.write (cachePath ++ ".tmp") contents).removeFile (cachePath ++ ".tmp")).write
    cachePath contents

/-! ### TileGenerator constants (tile_generator.py lines 62-67) -/

def TG_MAX_RETRIES : Nat := 3

def MEMORY_CHECK_INTERVAL : ℚ := 10

def MAX_MEMORY_USAGE_PCT : ℚ := 85

/-! ### Memory monitor (`_monitor_memory`, lines 794-837) -/

inductive MonitorOutcome where
  | raisedMemoryError (pct : ℚ)
  | completed
  deriving DecidableEq, Repr

structure MonitorResult where
  outcome : MonitorOutcome
  /-- number of "High memory usage" warnings actually logged. -/
  warningsLogged : Nat
  /-- final value of the `memory_warnings` counter. -/
  warnCounter : Nat
  deriving DecidableEq, Repr

/-- `_monitor_memory` over a finite trace of sampled system memory
percentages (one per polling interval).  Per sample: if the percentage
exceeds `MAX_MEMORY_USAGE_PCT` the warning counter is incremented and a
warning is logged only when the counter becomes 1; if the percentage
additionally exceeds 95 the monitor raises `MemoryError` (which its own
`except MemoryError: raise` clause re-raises into the future). -/
def monitorMemory : List ℚ → Nat → Nat → MonitorResult
  | [], counter, logged => ⟨.completed, logged, counter⟩
  | pct :: rest, counter, logged =>
      if MAX_MEMORY_USAGE_PCT < pct then
        let counter1 := counter + 1
        let logged1 := if counter1 = 1 then logged + 1 else logged
        if (95 : ℚ) < pct then ⟨.raisedMemoryError pct, logged1, counter1⟩
        else monitorMemory rest counter1 logged1
      else monitorMemory rest counter logged

/-- Whether `_generate_tiles_internal` (line 451) submits the memory-monitor
task: `if attempt == 0`. -/
def monitorStarted (attempt : Nat) : Bool := attempt == 0

/-- Environment of one `_generate_tiles_internal` run. -/
structure GenEnv where
  /-- whether `_execute_tippecanoe_with_progress` raises TippecanoeError. -/
  tippecanoeFails : Bool
  /-- whether the temporary output file exists after the subprocess run. -/
  tempOutputExists : Bool
  /-- system memory percentages the monitor samples during the run. -/
  memSamples : List ℚ
  deriving Repr

inductive GenResult where
  | ok (path : String)
  | raisedTippecanoeError
  deriving DecidableEq, Repr

/-- `_generate_tiles_internal` (lines 410-495).  The monitor future is
submitted when `attempt == 0`; afterwards the code only ever calls
`monitor_future.cancel()` and `executor.shutdown(wait=True)` on it —
`result()` is never called, so any exception stored in the future (in
particular the monitor's MemoryError) is discarded and does not influence
the returned value, which depends only on the tippecanoe outcome and the
presence of the temporary output file. -/
def generateTilesInternal (attempt : Nat) (env : GenEnv) (outputPath : String) : GenResult :=
  let _monitor : Option MonitorResult :=
    if monitorStarted attempt then some (monitorMemory env.memSamples 0 0) else none
  if env.tippecanoeFails then .raisedTippecanoeError
  else if env.tempOutputExists then .ok outputPath
  else .raisedTippecanoeError

/-! ### Tippecanoe command construction (`_build_tippecanoe_command`,
lines 497-594) and cache key (`_generate_cache_key`, lines 313-347) -/

structure TilesConfig where
  minZoom : Int
  maxZoom : Int
  buffer : Int
  detail : Int
  dropRate : ℚ
  simplification : ℚ
  qualityProfile : String
  deriving DecidableEq, Repr

/-- Default `TileConfig` field values from models/config.py
(min_zoom 0, max_zoom 14, buffer 64, detail 12, drop_rate 2.5,
simplification 1.0). -/
def defaultTilesConfig : TilesConfig :=
  { minZoom := 0, maxZoom := 14, buffer := 64, detail := 12,
    dropRate := 5 / 2, simplification := 1, qualityProfile := "balanced" }

/-- The numeric generation parameters carried by the constructed tippecanoe
command line. -/
structure TippecanoeParams where
  minZoom : Int
  maxZoom : Int
  buffer : Int
  dropRate : ℚ
  simplification : ℚ
  deriving DecidableEq, Repr

/-- `_build_tippecanoe_command`: `drop_rate = config.tiles.drop_rate`; for
`attempt > 0` it becomes `min(drop_rate * (1.5 ** attempt), 10.0)`.  The
`--simplification` argument is always `config.tiles.simplification`,
independent of the attempt. -/
def buildTippecanoeCommand (cfg : TilesConfig) (attempt : Nat) : TippecanoeParams :=
  let dropRate :=
    if 0 < attempt then min (cfg.dropRate * (3 / 2 : ℚ) ^ attempt) 10 else cfg.dropRate
  { minZoom := cfg.minZoom, maxZoom := cfg.maxZoom, buffer := cfg.buffer,
    dropRate := dropRate, simplification := cfg.simplification }

/-- Fingerprint of one input file as used by `_generate_cache_key`:
`f"{feature_type}:{file_path}:{stat.st_size}:{stat.st_mtime}"`. -/
structure FileFingerprint where
  featureType : String
  path : String
  size : Nat
  mtime : ℚ
  deriving DecidableEq, Repr

/-- The content from which `_generate_cache_key` computes its sha256 digest:
sorted per-file fingerprints plus the relevant configuration items (bbox,
zoom range, buffer, quality profile, layer list).  The digest is injective
on this content for verification purposes, so we work with the content
itself.  The function takes no attempt parameter, exactly as in the source
(the key is computed once in `generate`, before the retry loop). -/
def generateCacheKeyContent (files : List FileFingerprint) (bbox : String)
    (cfg : TilesConfig) : List String :=
  (files.map fun f =>
    f.featureType ++ ":" ++ f.path ++ ":" ++ toString f.size ++ ":" ++ toString f.mtime)
  ++ ["bbox:" ++ bbox,
      "min_zoom:" ++ toString cfg.minZoom,
      "max_zoom:" ++ toString cfg.maxZoom,
      "buffer:" ++ toString cfg.buffer,
      "quality:" ++ cfg.qualityProfile,
      "layers:" ++ String.intercalate "," (files.map (·.featureType))]

/-- The cache key visible to a given retry attempt.  In `generate`
(lines 140-147) the key is computed once, before `_generate_with_retry`;
`attempt` is passed only to `_build_tippecanoe_command`, never to
`_generate_cache_key`, so the key any attempt uses is the one value
computed up front. -/
def cacheKeyAtAttempt (files : List FileFingerprint) (bbox : String)
    (cfg : TilesConfig) (_attempt : Nat) : List String :=
  generateCacheKeyContent files bbox cfg

/-! ### Output validation (`_validate_output`, lines 854-1068) -/

/-- What one validation attempt observes when opening the MBTiles SQLite
archive. -/
structure DbObs where
  /-- false models `sqlite3.DatabaseError` raised by connect /
  `PRAGMA integrity_check` (structural corruption). -/
  integrityOk : Bool
  /-- table names from `sqlite_master`. -/
  tables : List String
  /-- whether the `format` key is present in the metadata table. -/
  formatMeta : Bool
  /-- `COUNT(*)` of the tiles (resp. map) table. -/
  tileCount : Nat
  /-- whether `MIN(zoom_level)`/`MAX(zoom_level)` are non-NULL. -/
  zoomOk : Bool
  /-- whether a sample `tile_data` row exists and is non-empty. -/
  sampleOk : Bool
  deriving DecidableEq, Repr

/-- The failure classes of one validation attempt.  `corruptDb` is the
ValidationError raised from `except sqlite3.DatabaseError`; the others are
the check failures the loop treats as possibly race-induced. -/
inductive VFail where
  | corruptDb
  | missingTables
  | badFormat
  | noFormatMeta
  | noTiles
  | badZoom
  | badSample
  deriving DecidableEq, Repr

/-- One validation attempt (the body of the retry loop of
`_validate_output`), returning the first failing check in source order, or
`none` on success.  Layout acceptance: the `metadata` table must exist and
either the old single-table layout (`tiles`) or the new two-table layout
(`map` + `images`) must be present. -/
def checkAttempt (obs : DbObs) : Option VFail :=
  if !obs.integrityOk then some .corruptDb
  else
    let hasOld := obs.tables.contains "tiles"
    let hasNew := obs.tables.contains "map" && obs.tables.contains "images"
    if !obs.tables.contains "metadata" then some .missingTables
    else if !(hasOld || hasNew) then some .badFormat
    else if !obs.formatMeta then some .noFormatMeta
    else if obs.tileCount = 0 then some .noTiles
    else if !obs.zoomOk then some .badZoom
    else if !obs.sampleOk then some .badSample
    else none

def maxValidationRetries : Nat := 3

def validationDelay : ℚ := 2

inductive VResult where
  | ok (attemptsUsed : Nat) (slept : ℚ)
  | err (reason : VFail) (attemptsUsed : Nat) (slept : ℚ)
  deriving DecidableEq, Repr

/-- The retry loop of `_validate_output` (lines 874-1068) over
`range(max_validation_retries)`.  Every failure — including the
corruption-classified ValidationError raised from
`except sqlite3.DatabaseError`, which the outer `except Exception` handler
catches — leads to `time.sleep(validation_delay)` and another attempt when
`attempt < max_validation_retries - 1`, and is raised only on the final
attempt. -/
def validateLoop (obsAt : Nat → DbObs) : List Nat → ℚ → VResult
  | [], slept => .err .corruptDb maxValidationRetries slept
  | attempt :: rest, slept =>
      match checkAttempt (obsAt attempt) with
      | none => .ok (attempt + 1) slept
      | some r =>
          if attempt < maxValidationRetries - 1 then
            validateLoop obsAt rest (slept + validationDelay)
          else .err r (attempt + 1) slept

def validateOutput (obsAt : Nat → DbObs) : VResult :=
  validateLoop obsAt (List.range maxValidationRetries) 0

/-! ### Concrete environments used by witnesses -/

/-- A filesystem whose source file is missing (every path absent); all other
failure causes are off. -/
def fsTestMissing : FS :=
  { files := fun _ => none, readable := fun _ => true,
    dirWritable := fun _ => true, freeSpace := 1000, mkdirFails := false,
    copyFails := false, renameFails := false, dirExists := fun _ => true,
    listing := [] }

/-- A healthy filesystem holding one source file "src" with contents
[1, 2, 3]. -/
def fsTestA : FS :=
  { files := fun p => if p = "src" then some [1, 2, 3] else none,
    readable := fun _ => true, dirWritable := fun _ => true,
    freeSpace := 1000, mkdirFails := false, copyFails := false,
    renameFails := false, dirExists := fun _ => true, listing := [] }

/-- A database observation for a structurally corrupted archive (the SQLite
open / integrity check raises). -/
def corruptObs : DbObs :=
  { integrityOk := false, tables := [], formatMeta := false, tileCount := 0,
    zoomOk := false, sampleOk := false }

/-- A database observation for a fully healthy archive in the old
single-table layout. -/
def goodObs : DbObs :=
  { integrityOk := true, tables := ["metadata", "tiles"], formatMeta := true,
    tileCount := 7, zoomOk := true, sampleOk := true }

/-! ## Theorems -/

/-- Helper: any non-200, non-429 HTTP status — in particular every 4xx other
than 429 — is classified as the generic `OverpassAPIError`, the same
exception type as a 5xx. -/
theorem classify_http_non429 (status : Nat) (h : status ≠ 429) :
    classifyAttempt (.http status) = some .overpassAPIError := by
  simp only [classifyAttempt, if_neg h]
  split <;> rfl

/-- C1 (counterexample): with every attempt answering HTTP 404 (a 4xx other
than 429), the downloader does NOT surface the error immediately: it
performs all 5 attempts and rotates the endpoint 3 times before raising,
so the trace is not the ⟨1 attempt, 0 rotations⟩ trace the claim
requires. -/
theorem c1_counterexample_4xx_is_retried :
    downloadWithRetry (fun _ => .http 404) =
      .raised .overpassAPIError ⟨5, 3, 0⟩ ∧
    downloadWithRetry (fun _ => .http 404) ≠
      .raised .overpassAPIError ⟨1, 0, 0⟩ := by
  decide

/-- C1 (amended): a 4xx response other than 429 raises the generic
`OverpassAPIError` and is retried exactly like a 5xx error: the downloader
performs all `MAX_RETRIES = 5` attempts, rotating the endpoint after each
failed attempt from the second one on (attempts 1, 2, 3 — 3 rotations),
and only then raises the error to the caller. -/
theorem c1_amended_4xx_retried_with_rotation (status : Nat)
    (_h400 : 400 ≤ status) (_h500 : status < 500) (h429 : status ≠ 429) :
    downloadWithRetry (fun _ => .http status) =
      .raised .overpassAPIError ⟨5, 3, 0⟩ := by
  have hc := classify_http_non429 status h429
  have hr : List.range MAX_RETRIES = [0, 1, 2, 3, 4] := by decide
  simp only [downloadWithRetry, hr]
  simp [downloadLoop, hc, rotateEndpoint, OVERPASS_ENDPOINTS, MAX_RETRIES]

/-- Witness for `c1_amended_4xx_retried_with_rotation` at status 404. -/
theorem c1_amended_4xx_retried_with_rotation_witness :
    400 ≤ 404 ∧ 404 < 500 ∧ 404 ≠ 429 ∧
    downloadWithRetry (fun _ => .http 404) =
      .raised .overpassAPIError ⟨5, 3, 0⟩ :=
  ⟨by decide, by decide, by decide,
    c1_amended_4xx_retried_with_rotation 404 (by decide) (by decide) (by decide)⟩

/-- C5: for every attempt index, base delay ≥ 0 and jitter draw in [0, 1),
the computed retry delay lies within [1, MAX_RETRY_DELAY = 60], and the
pre-jitter delay `min(base * 2^attempt, 60)` is non-decreasing in the
attempt index. -/
theorem c5_backoff_bounds (attempt : Nat) (baseDelay rand : ℚ)
    (_hr0 : 0 ≤ rand) (_hr1 : rand < 1) (hbase : 0 ≤ baseDelay) :
    1 ≤ calculateRetryDelay attempt baseDelay rand ∧
    calculateRetryDelay attempt baseDelay rand ≤ MAX_RETRY_DELAY ∧
    preJitterDelay attempt baseDelay ≤ preJitterDelay (attempt + 1) baseDelay := by
  refine ⟨le_max_left _ _, ?_, ?_⟩
  · exact max_le (by norm_num [MAX_RETRY_DELAY]) (min_le_right _ _)
  · unfold preJitterDelay
    refine min_le_min ?_ le_rfl
    exact mul_le_mul_of_nonneg_left
      (pow_le_pow_right₀ (by norm_num) (Nat.le_succ _)) hbase

/-- Witness for `c5_backoff_bounds` at attempt 0, base delay 2 (the
downloader's BASE_RETRY_DELAY) and jitter draw 1/2. -/
theorem c5_backoff_bounds_witness :
    (0 : ℚ) ≤ 1 / 2 ∧ (1 / 2 : ℚ) < 1 ∧ (0 : ℚ) ≤ 2 ∧
    (1 ≤ calculateRetryDelay 0 2 (1 / 2) ∧
     calculateRetryDelay 0 2 (1 / 2) ≤ MAX_RETRY_DELAY ∧
     preJitterDelay 0 2 ≤ preJitterDelay 1 2) :=
  ⟨by norm_num, by norm_num, by norm_num,
    c5_backoff_bounds 0 2 (1 / 2) (by norm_num) (by norm_num) (by norm_num)⟩

/-- C6 (code evaluated at the failing input): the jitter formula
`delay * 0.25 * (random() - 0.5)` perturbs the delay by at most ±12.5%,
not the claimed (and source-commented) ±25%.  At attempt 0 with base delay
2 the pre-jitter delay is 2; over the whole jitter-draw range [0, 1) the
final delay stays within [7/4, 9/4) — i.e. within ±(1/8)·delay — and the
draw 0 attains exactly 7/4 = delay − 12.5%, never 3/2 = delay − 25%. -/
theorem c6_jitter_span_is_eighth_not_quarter :
    (∀ rand : ℚ, 0 ≤ rand → rand < 1 →
      (7 / 4 : ℚ) ≤ calculateRetryDelay 0 2 rand ∧
      calculateRetryDelay 0 2 rand < 9 / 4) ∧
    calculateRetryDelay 0 2 0 = 7 / 4 := by
  have hpre : preJitterDelay 0 2 = 2 := by
    norm_num [preJitterDelay, MAX_RETRY_DELAY]
  constructor
  · intro rand h0 h1
    simp only [calculateRetryDelay, hpre, MAX_RETRY_DELAY]
    rw [min_eq_left (by linarith), max_eq_right (by linarith)]
    constructor <;> linarith
  · simp only [calculateRetryDelay, hpre, MAX_RETRY_DELAY]
    norm_num

/-- Witness for `c6_jitter_span_is_eighth_not_quarter` at jitter draw 0. -/
theorem c6_jitter_span_witness :
    (0 : ℚ) ≤ 0 ∧ (0 : ℚ) < 1 ∧
    ((7 / 4 : ℚ) ≤ calculateRetryDelay 0 2 0 ∧
     calculateRetryDelay 0 2 0 < 9 / 4) :=
  ⟨le_refl 0, by norm_num,
    c6_jitter_span_is_eighth_not_quarter.1 0 (le_refl 0) (by norm_num)⟩

/-- C9: the endpoint pool has 3 entries; rotation maps a valid index to a
valid index, always moves to a different endpoint index than the one that
just failed, and three consecutive rotations return to the starting index
(circularity).  Rotation acts only on the index — the pool itself is a
constant list it never modifies. -/
theorem c9_rotation_circular (i : Nat) (hi : i < OVERPASS_ENDPOINTS.length) :
    OVERPASS_ENDPOINTS.length = 3 ∧
    rotateEndpoint i < OVERPASS_ENDPOINTS.length ∧
    rotateEndpoint i ≠ i ∧
    rotateEndpoint (rotateEndpoint (rotateEndpoint i)) = i := by
  have hlen : OVERPASS_ENDPOINTS.length = 3 := rfl
  rw [hlen] at hi
  unfold rotateEndpoint
  rw [hlen]
  refine ⟨rfl, ?_, ?_, ?_⟩ <;> omega

/-- Helper: the try-block of `put` raises exactly when one of the failure
conditions enumerated by `putFails` holds, and otherwise performs the
temp-write plus rename. -/
theorem putBody_spec (cm : CacheManager) (fs : FS) (cachePath sourcePath : String) :
    (putFails cm fs sourcePath = true →
      ∃ e, putBody cm fs cachePath sourcePath = .error e) ∧
    (putFails cm fs sourcePath = false →
      putBody cm fs cachePath sourcePath =
        .ok (((fs.write (cachePath ++ ".tmp") ((fs.files sourcePath).getD [])).removeFile
                (cachePath ++ ".tmp")).write cachePath ((fs.files sourcePath).getD []),
             cachePath)) := by
  unfold putBody putFails
  by_cases h1 : fs.mkdirFails
  · simp [h1]
  · cases hf : fs.files sourcePath with
    | none => simp [h1, hf]
    | some contents =>
      by_cases h2 : fs.readable sourcePath
      · by_cases h3 : fs.freeSpace < contents.length * 2
        · simp [h1, hf, h2, h3]
        · by_cases h4 : fs.dirWritable cm.cacheDir
          · by_cases h5 : fs.copyFails
            · simp [h1, hf, h2, h3, h4, h5]
            · by_cases h6 : fs.renameFails
              · simp [h1, hf, h2, h3, h4, h5, h6]
              · simp [h1, hf, h2, h3, h4, h5, h6]
          · simp [h1, hf, h2, h3, h4]
      · simp [h1, hf, h2]

/-- Helper: an enabled `put` onto a distinct cache path degrades to passing
the source path through whenever any failure condition holds. -/
theorem put_degrades (cm : CacheManager) (fs : FS) (key suffix sourcePath : String)
    (he : cm.enabled = true) (hne : sourcePath ≠ getPath cm key suffix)
    (hfail : putFails cm fs sourcePath = true) :
    cm.put fs key sourcePath suffix = .ok (fs, sourcePath) := by
  obtain ⟨e, hpb⟩ := (putBody_spec cm fs (getPath cm key suffix) sourcePath).1 hfail
  simp [CacheManager.put, he, hne, hpb]

/-- Helper: an enabled `put` onto a distinct cache path with no failure
condition performs the atomic write and returns the cache path. -/
theorem put_success (cm : CacheManager) (fs : FS) (key suffix sourcePath : String)
    (he : cm.enabled = true) (hne : sourcePath ≠ getPath cm key suffix)
    (hok : putFails cm fs sourcePath = false) :
    cm.put fs key sourcePath suffix =
      .ok (putSuccessFs cm fs key suffix sourcePath, getPath cm key suffix) := by
  have hpb := (putBody_spec cm fs (getPath cm key suffix) sourcePath).2 hok
  simp [CacheManager.put, he, hne, hpb, putSuccessFs]

/-- Helper: after a successful `put`, the cache path holds exactly the
source contents. -/
theorem putSuccessFs_files_cachePath (cm : CacheManager) (fs : FS)
    (key suffix sourcePath : String) :
    (putSuccessFs cm fs key suffix sourcePath).files (getPath cm key suffix) =
      some ((fs.files sourcePath).getD []) := by
  simp [putSuccessFs, FS.write]

/-- Helper: when no failure condition holds, the source file is present. -/
theorem putFails_source_some (cm : CacheManager) (fs : FS) (sourcePath : String)
    (hok : putFails cm fs sourcePath = false) :
    ∃ c, fs.files sourcePath = some c := by
  unfold putFails at hok
  simp only [Bool.or_eq_false_iff] at hok
  rcases hok with ⟨⟨⟨⟨⟨⟨-, hsome⟩, -⟩, -⟩, -⟩, -⟩, -⟩
  cases hf : fs.files sourcePath with
  | none => rw [hf] at hsome; simp at hsome
  | some c => exact ⟨c, rfl⟩

/-- C3: `CacheManager.put` never raises: for every cache manager, filesystem
state, key, suffix and source path its translated result is `.ok`.
Moreover, when enabled and writing to a distinct cache path, every failure
condition the claim lists (missing or unreadable source, free space below
twice the source size, unwritable cache directory, failing copy or rename,
failing mkdir) makes `put` return the source path with the filesystem
unchanged, while in the absence of all failure conditions it performs the
atomic temp-write-and-rename and returns the cache path. -/
theorem c3_put_never_raises (cm : CacheManager) (fs : FS)
    (key suffix sourcePath : String) :
    (∃ res, cm.put fs key sourcePath suffix = .ok res) ∧
    (cm.enabled = true → sourcePath ≠ getPath cm key suffix →
      putFails cm fs sourcePath = true →
      cm.put fs key sourcePath suffix = .ok (fs, sourcePath)) ∧
    (cm.enabled = true → sourcePath ≠ getPath cm key suffix →
      putFails cm fs sourcePath = false →
      cm.put fs key sourcePath suffix =
        .ok (putSuccessFs cm fs key suffix sourcePath, getPath cm key suffix)) := by
  refine ⟨?_, put_degrades cm fs key suffix sourcePath,
    put_success cm fs key suffix sourcePath⟩
  by_cases he : cm.enabled
  · by_cases hsp : sourcePath = getPath cm key suffix
    · exact ⟨(fs, getPath cm key suffix), by simp [CacheManager.put, he, hsp]⟩
    · cases hpb : putBody cm fs (getPath cm key suffix) sourcePath with
      | error e => exact ⟨(fs, sourcePath), by simp [CacheManager.put, he, hsp, hpb]⟩
      | ok r => exact ⟨r, by simp [CacheManager.put, he, hsp, hpb]⟩
  · exact ⟨(fs, sourcePath), by simp [CacheManager.put, he]⟩

/-- Witness for `c3_put_never_raises`: a missing source file on a healthy
cache directory — `put` returns the source path unchanged instead of
raising. -/
theorem c3_put_never_raises_witness :
    (⟨"cache", true⟩ : CacheManager).enabled = true ∧
    "src" ≠ getPath ⟨"cache", true⟩ "k" ".osm" ∧
    putFails ⟨"cache", true⟩ fsTestMissing "src" = true ∧
    CacheManager.put ⟨"cache", true⟩ fsTestMissing "k" "src" ".osm" =
      .ok (fsTestMissing, "src") :=
  ⟨rfl, by decide, by decide,
    (c3_put_never_raises ⟨"cache", true⟩ fsTestMissing "k" ".osm" "src").2.1
      rfl (by decide) (by decide)⟩

/-- C4: with caching enabled, a successful `put(K, A)` makes `get(K)` return
the cache path, whose contents equal the source contents; a second
successful `put(K, A')` with byte-identical contents resolves to the same
cache path with read-compatible contents.  The key-to-path mapping is the
pure function `getPath`, so the resolved path is the same across both
calls. -/
theorem c4_cache_round_trip (cm : CacheManager) (fs : FS) (key suffix src : String)
    (he : cm.enabled = true) (hne : src ≠ getPath cm key suffix)
    (hok : putFails cm fs src = false) :
    ∃ fs1, cm.put fs key src suffix = .ok (fs1, getPath cm key suffix) ∧
      cm.get fs1 key suffix = some (getPath cm key suffix) ∧
      fs1.files (getPath cm key suffix) = fs.files src ∧
      (∀ srcB, srcB ≠ getPath cm key suffix → putFails cm fs1 srcB = false →
        fs1.files srcB = fs.files src →
        ∃ fs2, cm.put fs1 key srcB suffix = .ok (fs2, getPath cm key suffix) ∧
          fs2.files (getPath cm key suffix) = fs.files src) := by
  obtain ⟨c, hc⟩ := putFails_source_some cm fs src hok
  refine ⟨putSuccessFs cm fs key suffix src,
    put_success cm fs key suffix src he hne hok, ?_, ?_, ?_⟩
  · simp [CacheManager.get, he, putSuccessFs_files_cachePath]
  · rw [putSuccessFs_files_cachePath, hc]
    simp
  · intro srcB hneB hokB hsame
    obtain ⟨cB, hcB⟩ := putFails_source_some cm (putSuccessFs cm fs key suffix src) srcB hokB
    refine ⟨putSuccessFs cm (putSuccessFs cm fs key suffix src) key suffix srcB,
      put_success cm _ key suffix srcB he hneB hokB, ?_⟩
    rw [putSuccessFs_files_cachePath, hsame, hc]
    simp

/-- Witness for `c4_cache_round_trip`: caching "src" (contents [1, 2, 3])
under key "k" with suffix ".osm" on a healthy filesystem. -/
theorem c4_cache_round_trip_witness :
    (⟨"cache", true⟩ : CacheManager).enabled = true ∧
    "src" ≠ getPath ⟨"cache", true⟩ "k" ".osm" ∧
    putFails ⟨"cache", true⟩ fsTestA "src" = false ∧
    (∃ fs1, CacheManager.put ⟨"cache", true⟩ fsTestA "k" "src" ".osm" =
        .ok (fs1, getPath ⟨"cache", true⟩ "k" ".osm") ∧
      CacheManager.get ⟨"cache", true⟩ fs1 "k" ".osm" =
        some (getPath ⟨"cache", true⟩ "k" ".osm") ∧
      fs1.files (getPath ⟨"cache", true⟩ "k" ".osm") = fsTestA.files "src" ∧
      (∀ srcB, srcB ≠ getPath ⟨"cache", true⟩ "k" ".osm" →
        putFails ⟨"cache", true⟩ fs1 srcB = false →
        fs1.files srcB = fsTestA.files "src" →
        ∃ fs2, CacheManager.put ⟨"cache", true⟩ fs1 "k" srcB ".osm" =
            .ok (fs2, getPath ⟨"cache", true⟩ "k" ".osm") ∧
          fs2.files (getPath ⟨"cache", true⟩ "k" ".osm") = fsTestA.files "src")) :=
  ⟨rfl, by decide, by decide,
    c4_cache_round_trip ⟨"cache", true⟩ fsTestA "k" ".osm" "src"
      rfl (by decide) (by decide)⟩

/-- C10: with caching disabled, every operation is a no-op cache miss:
`exists` is false, `get` is `None`, `put` passes the source path through
with the filesystem untouched, and `get_size` is 0. -/
theorem c10_disabled_cache_noop (cm : CacheManager) (fs : FS)
    (key suffix src : String) (hd : cm.enabled = false) :
    cm.existsEntry fs key suffix = false ∧
    cm.get fs key suffix = none ∧
    cm.put fs key src suffix = .ok (fs, src) ∧
    cm.getSize fs = 0 := by
  simp [CacheManager.existsEntry, CacheManager.get, CacheManager.put,
    CacheManager.getSize, hd]

/-- Witness for `c10_disabled_cache_noop` on a populated filesystem. -/
theorem c10_disabled_cache_noop_witness :
    (⟨"cache", false⟩ : CacheManager).enabled = false ∧
    (CacheManager.existsEntry ⟨"cache", false⟩ fsTestA "k" ".osm" = false ∧
     CacheManager.get ⟨"cache", false⟩ fsTestA "k" ".osm" = none ∧
     CacheManager.put ⟨"cache", false⟩ fsTestA "k" "src" ".osm" = .ok (fsTestA, "src") ∧
     CacheManager.getSize ⟨"cache", false⟩ fsTestA = 0) :=
  ⟨rfl, c10_disabled_cache_noop ⟨"cache", false⟩ fsTestA "k" ".osm" "src" rfl⟩

/-- Witness for `c9_rotation_circular` at index 0. -/
theorem c9_rotation_circular_witness :
    0 < OVERPASS_ENDPOINTS.length ∧
    (OVERPASS_ENDPOINTS.length = 3 ∧
     rotateEndpoint 0 < OVERPASS_ENDPOINTS.length ∧
     rotateEndpoint 0 ≠ 0 ∧
     rotateEndpoint (rotateEndpoint (rotateEndpoint 0)) = 0) :=
  ⟨by decide, c9_rotation_circular 0 (by decide)⟩

/-- C2 (code evaluated at the failing input): the memory monitor is indeed
started exactly on attempt 0, and on a 96% sample it raises the
memory-classified error, while a soft-threshold trace (86-88%) merely logs
one warning and completes.  BUT the raised error lands in a future whose
result `_generate_tiles_internal` never retrieves (it only calls
`cancel()` and `shutdown()`), so a run whose tippecanoe subprocess
succeeds still returns the tiles path instead of aborting — the dedicated
`except MemoryError` handler in `_generate_with_retry` can never fire. -/
theorem c2_critical_memory_error_discarded :
    monitorStarted 0 = true ∧ monitorStarted 1 = false ∧
    (monitorMemory [96] 0 0).outcome = .raisedMemoryError 96 ∧
    (monitorMemory [86, 87, 88] 0 0).outcome = .completed ∧
    (monitorMemory [86, 87, 88] 0 0).warningsLogged = 1 ∧
    generateTilesInternal 0 ⟨false, true, [96]⟩ "tileset.mbtiles" =
      .ok "tileset.mbtiles" := by
  decide

/-- C7 (counterexample): with a structurally corrupted archive (the SQLite
open / integrity check raises on every attempt), validation does NOT
surface the error on the attempt where it is detected: the
corruption-classified ValidationError is caught by the retry loop's
generic `except Exception` handler, so all 3 attempts are consumed (with
two 2-second sleeps, 4 seconds total) before the error reaches the
caller — not 1 attempt with 0 sleeps as the claim requires. -/
theorem c7_counterexample_corruption_retried :
    validateOutput (fun _ => corruptObs) = .err .corruptDb 3 4 ∧
    validateOutput (fun _ => corruptObs) ≠ .err .corruptDb 1 0 := by
  have hr : List.range maxValidationRetries = [0, 1, 2] := by decide
  have hchk : checkAttempt corruptObs = some .corruptDb := by decide
  have h1 : validateOutput (fun _ => corruptObs) = .err .corruptDb 3 4 := by
    norm_num [validateOutput, hr, validateLoop, hchk, maxValidationRetries,
      validationDelay]
  exact ⟨h1, by rw [h1]; simp⟩

/-- C7 (amended): `_validate_output` retries every failing check — the
flush-race-prone ones and the corruption-classified one alike — up to
`maxValidationRetries = 3` attempts with a fixed `validationDelay = 2`
second sleep between attempts: a first-attempt failure of any class
followed by a pass succeeds on attempt 2 after one sleep; failures on the
first two attempts followed by a pass succeed on attempt 3 after two
sleeps; and only when all 3 attempts fail is the last failure raised. -/
theorem c7_amended_validation_retry_uniform (obsAt : Nat → DbObs) :
    maxValidationRetries = 3 ∧ validationDelay = 2 ∧
    (∀ r, checkAttempt (obsAt 0) = some r → checkAttempt (obsAt 1) = none →
      validateOutput obsAt = .ok 2 validationDelay) ∧
    (∀ r0 r1, checkAttempt (obsAt 0) = some r0 → checkAttempt (obsAt 1) = some r1 →
      checkAttempt (obsAt 2) = none →
      validateOutput obsAt = .ok 3 (validationDelay + validationDelay)) ∧
    (∀ r0 r1 r2, checkAttempt (obsAt 0) = some r0 → checkAttempt (obsAt 1) = some r1 →
      checkAttempt (obsAt 2) = some r2 →
      validateOutput obsAt = .err r2 3 (validationDelay + validationDelay)) := by
  have hr : List.range maxValidationRetries = [0, 1, 2] := by decide
  refine ⟨rfl, rfl, ?_, ?_, ?_⟩
  · intro r h0 h1
    simp [validateOutput, hr, validateLoop, h0, h1, maxValidationRetries]
  · intro r0 r1 h0 h1 h2
    simp [validateOutput, hr, validateLoop, h0, h1, h2, maxValidationRetries]
  · intro r0 r1 r2 h0 h1 h2
    simp [validateOutput, hr, validateLoop, h0, h1, h2, maxValidationRetries]

/-- Witness for `c7_amended_validation_retry_uniform`: corruption on the
first attempt, a healthy archive on the second — validation succeeds on
attempt 2 after one 2-second sleep. -/
theorem c7_amended_validation_retry_uniform_witness :
    checkAttempt ((fun n => if n = 0 then corruptObs else goodObs) 0) =
      some .corruptDb ∧
    checkAttempt ((fun n => if n = 0 then corruptObs else goodObs) 1) = none ∧
    validateOutput (fun n => if n = 0 then corruptObs else goodObs) =
      .ok 2 validationDelay :=
  ⟨by decide, by decide,
    (c7_amended_validation_retry_uniform
        (fun n => if n = 0 then corruptObs else goodObs)).2.2.1
      .corruptDb (by decide) (by decide)⟩

/-- C8 (counterexample): with the default tile configuration, the
`--simplification` parameter of the tippecanoe command is identical on
attempt 1 and attempt 0 — it is not scaled by any factor greater than 1
per attempt, refuting the claim that both the feature-dropping and the
geometry-simplification parameters strictly increase across attempts. -/
theorem c8_counterexample_simplification_not_scaled :
    (buildTippecanoeCommand defaultTilesConfig 1).simplification =
      (buildTippecanoeCommand defaultTilesConfig 0).simplification ∧
    ¬ ((buildTippecanoeCommand defaultTilesConfig 0).simplification <
        (buildTippecanoeCommand defaultTilesConfig 1).simplification) := by
  decide

/-- C8 (amended): only the feature-dropping parameter is scaled on retries —
`drop_rate` becomes `min(drop_rate * 1.5^attempt, 10.0)` for attempt > 0
and strictly increases from one attempt to the next while below the cap
(for a positive configured rate); the simplification parameter is passed
through from the configuration unchanged on every attempt; and the cache
key, computed before the retry loop, is the same for every attempt. -/
theorem c8_amended_drop_rate_monotone_key_stable (cfg : TilesConfig) (a : Nat)
    (files : List FileFingerprint) (bbox : String) :
    (0 < cfg.dropRate → (buildTippecanoeCommand cfg a).dropRate < 10 →
      (buildTippecanoeCommand cfg a).dropRate <
        (buildTippecanoeCommand cfg (a + 1)).dropRate) ∧
    (buildTippecanoeCommand cfg a).simplification = cfg.simplification ∧
    (∀ b : Nat, cacheKeyAtAttempt files bbox cfg a = cacheKeyAtAttempt files bbox cfg b) := by
  refine ⟨?_, rfl, fun b => rfl⟩
  intro hd hlt
  cases a with
  | zero =>
    have h0 : (buildTippecanoeCommand cfg 0).dropRate = cfg.dropRate := by
      simp [buildTippecanoeCommand]
    have h1 : (buildTippecanoeCommand cfg 1).dropRate =
        min (cfg.dropRate * (3 / 2 : ℚ) ^ 1) 10 := by
      simp [buildTippecanoeCommand]
    rw [h0] at hlt
    rw [h0, h1]
    refine lt_min ?_ hlt
    rw [pow_one]
    linarith
  | succ n =>
    have h0 : (buildTippecanoeCommand cfg (n + 1)).dropRate =
        min (cfg.dropRate * (3 / 2 : ℚ) ^ (n + 1)) 10 := by
      simp [buildTippecanoeCommand]
    have h1 : (buildTippecanoeCommand cfg (n + 2)).dropRate =
        min (cfg.dropRate * (3 / 2 : ℚ) ^ (n + 2)) 10 := by
      simp [buildTippecanoeCommand]
    rw [h0] at hlt
    rw [h0, h1]
    have hx : cfg.dropRate * (3 / 2 : ℚ) ^ (n + 1) < 10 := by
      rcases min_lt_iff.mp hlt with h | h
      · exact h
      · exact absurd h (lt_irrefl _)
    rw [min_eq_left hx.le]
    refine lt_min ?_ hx
    have hpos : 0 < cfg.dropRate * (3 / 2 : ℚ) ^ (n + 1) :=
      mul_pos hd (by positivity)
    calc cfg.dropRate * (3 / 2 : ℚ) ^ (n + 1)
        < cfg.dropRate * (3 / 2 : ℚ) ^ (n + 1) * (3 / 2) := by nlinarith
      _ = cfg.dropRate * (3 / 2 : ℚ) ^ (n + 2) := by ring

/-- Witness for `c8_amended_drop_rate_monotone_key_stable` at the default
configuration and attempt 0: the drop rate rises from 5/2 to 15/4. -/
theorem c8_amended_drop_rate_monotone_witness :
    0 < defaultTilesConfig.dropRate ∧
    (buildTippecanoeCommand defaultTilesConfig 0).dropRate < 10 ∧
    (buildTippecanoeCommand defaultTilesConfig 0).dropRate <
      (buildTippecanoeCommand defaultTilesConfig 1).dropRate :=
  ⟨by norm_num [defaultTilesConfig],
    by norm_num [buildTippecanoeCommand, defaultTilesConfig],
    (c8_amended_drop_rate_monotone_key_stable defaultTilesConfig 0 [] "").1
      (by norm_num [defaultTilesConfig])
      (by norm_num [buildTippecanoeCommand, defaultTilesConfig])⟩

end Tilecraft
